import Mathlib

/-!
Verification of the serial-bridge core of `src/esp32/src/main.rs`.

The bridge shares one `UartDriver` behind `Arc<Mutex<...>>` among WebSocket
sessions.  Each session runs the loop in the `ws_handler("/ws", ...)` closure
of `setup_http_server`: receive a frame from the socket, lock the mutex and
`write_all` the frame to the UART, lock the mutex again and `read` a bounded
response, and, if nonempty, `ws.send` it back.  We embed that loop as a pure
step function over an explicit environment describing the outcomes of the
blocking calls, together with the trace of primitive steps the loop performs,
and prove the specified properties about it.
-/

namespace Ecco

/-- Buffer size of both `buf` and `resp` in the ws handler (`[0u8; 1024]`). -/
def MAX_FRAME : Nat := 1024

/-- Baud rate constant `UART_BAUD` from `main.rs`. -/
def UART_BAUD : Nat := 115200

/-- Outcome of one `ws.recv(&mut buf)` call, as matched by the handler:
`data f` is `Ok(len)` with `len > 0` (the frame is `buf[..len]`),
`closed` is `Ok(_)` with `len = 0`, and `error` is `Err(e)`. -/
inductive RecvOutcome where
  | data (f : List Nat)
  | closed
  | error
deriving DecidableEq

/-- Outcome of one `uart.read(&mut resp)` call: `bytes bs` is `Ok(n)` with
`bs = resp[..n]` (zero-length is legal), `error` is `Err(e)`. -/
inductive ReadOutcome where
  | bytes (bs : List Nat)
  | error
deriving DecidableEq

/-- Session state of the forwarding loop: `Connected` while the loop is
running, `Closed` once it has exited via `break` or handler return. -/
inductive SessionState where
  | Connected
  | Closed
deriving DecidableEq

/-- Environment of one loop iteration: the outcomes the blocking calls and
the two `uart.lock()` attempts would deliver during this exchange. -/
structure ExchangeEnv where
  recv : RecvOutcome
  lockW : Bool
  writeOk : Bool
  lockR : Bool
  readRes : ReadOutcome
  sendOk : Bool
deriving DecidableEq

/-- Primitive steps a loop iteration performs, in order.  `lockAcquire` and
`lockRelease` delimit one critical section on the shared `Mutex`;
a failed `uart.lock()` (poisoned mutex, skipped by `if let Ok(...)`)
contributes no steps. -/
inductive PrimStep where
  | wsRecv (r : RecvOutcome)
  | lockAcquire
  | uartWrite (bs : List Nat) (ok : Bool)
  | uartRead (r : ReadOutcome)
  | lockRelease
  | wsSend (bs : List Nat) (ok : Bool)
deriving DecidableEq

/-- Observable result of one loop iteration. -/
structure StepResult where
  state : SessionState
  uartWritten : Option (List Nat)
  reply : Option (List Nat)
deriving DecidableEq

/-- One iteration of the ws-handler loop, embedded from `main.rs` lines
131–163.  `match ws.recv(&mut buf)`: on `Ok(len) if len > 0`, the first
`if let Ok(mut uart) = uart.lock()` block runs `uart.write_all(&buf[..len])`
(a write error is only logged); the lock is dropped, then the second
`if let Ok(mut uart) = uart.lock()` block runs `uart.read(&mut resp)` and,
on `Ok(n) if n > 0`, sends `&resp[..n]` with `ws.send` inside the same
block (`break` on send error); `Ok(0)` and `Err(_)` from the read fall into
`_ => {}`.  `Ok(0)` from `ws.recv` breaks, and `Err(e)` breaks.
Returns the iteration result and its trace of primitive steps. -/
def wsExchange (env : ExchangeEnv) : StepResult × List PrimStep :=
  match env.recv with
  | RecvOutcome.data f =>
      let written : Option (List Nat) :=
        if env.lockW then (if env.writeOk then some f else none) else none
      let trW : List PrimStep :=
        if env.lockW then
          [PrimStep.lockAcquire, PrimStep.uartWrite f env.writeOk, PrimStep.lockRelease]
        else []
      let rest : SessionState × Option (List Nat) × List PrimStep :=
        if env.lockR then
          match env.readRes with
          | ReadOutcome.bytes bs =>
              if bs.isEmpty then
                (SessionState.Connected, none,
                  [PrimStep.lockAcquire, PrimStep.uartRead (ReadOutcome.bytes bs),
                   PrimStep.lockRelease])
              else if env.sendOk then
                (SessionState.Connected, some bs,
                  [PrimStep.lockAcquire, PrimStep.uartRead (ReadOutcome.bytes bs),
                   PrimStep.wsSend bs true, PrimStep.lockRelease])
              else
                (SessionState.Closed, none,
                  [PrimStep.lockAcquire, PrimStep.uartRead (ReadOutcome.bytes bs),
                   PrimStep.wsSend bs false, PrimStep.lockRelease])
          | ReadOutcome.error =>
              (SessionState.Connected, none,
                [PrimStep.lockAcquire, PrimStep.uartRead ReadOutcome.error,
                 PrimStep.lockRelease])
        else (SessionState.Connected, none, [])
      (⟨rest.1, written, rest.2.1⟩,
        PrimStep.wsRecv (RecvOutcome.data f) :: trW ++ rest.2.2)
  | RecvOutcome.closed =>
      (⟨SessionState.Closed, none, none⟩, [PrimStep.wsRecv RecvOutcome.closed])
  | RecvOutcome.error =>
      (⟨SessionState.Closed, none, none⟩, [PrimStep.wsRecv RecvOutcome.error])

/-- Is a step an access to the serial transport handle? -/
def isUartOp : PrimStep → Bool
  | PrimStep.uartWrite _ _ => true
  | PrimStep.uartRead _ => true
  | _ => false

/-- Walk a trace tracking the mutex hold depth starting at `d`; `none` if a
uart access happens while unlocked or a release without a matching acquire;
otherwise the final depth. -/
def lockWalk : Nat → List PrimStep → Option Nat
  | d, [] => some d
  | d, PrimStep.lockAcquire :: r => lockWalk (d + 1) r
  | d, PrimStep.lockRelease :: r => if d = 0 then none else lockWalk (d - 1) r
  | d, s :: r => if isUartOp s && d = 0 then none else lockWalk d r

/-- Serial payloads written in a trace (one entry per `uartWrite`). -/
def writesOf (t : List PrimStep) : List (List Nat) :=
  t.filterMap fun s =>
    match s with
    | PrimStep.uartWrite bs _ => some bs
    | _ => none

/-- Serial read outcomes in a trace (one entry per `uartRead`). -/
def readsOf (t : List PrimStep) : List ReadOutcome :=
  t.filterMap fun s =>
    match s with
    | PrimStep.uartRead r => some r
    | _ => none

/-- Frames pushed to the client in a trace (one entry per `wsSend`). -/
def sendsOf (t : List PrimStep) : List (List Nat × Bool) :=
  t.filterMap fun s =>
    match s with
    | PrimStep.wsSend bs ok => some (bs, ok)
    | _ => none

/-- `true` iff no serial read precedes the first serial write of the trace. -/
def noReadBeforeWrite : List PrimStep → Bool
  | [] => true
  | PrimStep.uartRead _ :: _ => false
  | PrimStep.uartWrite _ _ :: _ => true
  | _ :: r => noReadBeforeWrite r

/-- The whole ws-handler `loop`, run against a list of per-iteration
environments: each iteration is `wsExchange`; the loop continues on
`Connected` and stops on `Closed` (a `break`).  Steps are tagged with the
index (starting at `n`) of the exchange that performed them. -/
def sessionRun : Nat → List ExchangeEnv → List (Nat × PrimStep)
  | _, [] => []
  | n, env :: rest =>
      (wsExchange env).2.map (fun s => (n, s)) ++
        match (wsExchange env).1.state with
        | SessionState.Connected => sessionRun (n + 1) rest
        | SessionState.Closed => []

/-- Boot-time errors surfaced by `main` through `anyhow::Result` and `?`. -/
inductive BootError where
  | TransportInitError
  | WifiError
  | HttpError
deriving DecidableEq

/-- Whether each fallible boot step of `main` would succeed. -/
structure BootEnv where
  uartOk : Bool
  wifiOk : Bool
  httpOk : Bool
deriving DecidableEq

/-- Externally visible boot actions of `main`, in program order. -/
inductive BootStep where
  | uartOpen (baud : Nat) (ok : Bool)
  | wifiStart (ok : Bool)
  | serverStart (ok : Bool)
deriving DecidableEq

/-- The serial handle `UartDriver` produced by `setup_uart`:
configured once at the fixed `UART_BAUD`. -/
structure UartHandle where
  baud : Nat
deriving DecidableEq

/-- `setup_uart` from `main.rs`: builds a `UartDriver` at `UART_BAUD`;
`UartDriver::new(...)?` fails with an initialization error if the device
cannot be configured. -/
def setup_uart (devOk : Bool) : Except BootError UartHandle :=
  if devOk then Except.ok ⟨UART_BAUD⟩ else Except.error BootError.TransportInitError

/-- `fn main` from `main.rs`, boot portion: `setup_uart(...)?` runs first
and is the only UART open; then `setup_wifi(...)?`, then
`setup_http_server(uart)?` which registers the `/ws` handler — only after
this can any session run.  Every `?` aborts `main` with the error.  On
success `main` parks in the keep-alive loop (modelled as `Except.ok ()`).
Returns the result and the trace of boot steps performed. -/
def main_boot (env : BootEnv) : Except BootError Unit × List BootStep :=
  match setup_uart env.uartOk with
  | Except.error e => (Except.error e, [BootStep.uartOpen UART_BAUD false])
  | Except.ok _ =>
      if env.wifiOk then
        if env.httpOk then
          (Except.ok (),
            [BootStep.uartOpen UART_BAUD true, BootStep.wifiStart true,
             BootStep.serverStart true])
        else
          (Except.error BootError.HttpError,
            [BootStep.uartOpen UART_BAUD true, BootStep.wifiStart true,
             BootStep.serverStart false])
      else
        (Except.error BootError.WifiError,
          [BootStep.uartOpen UART_BAUD true, BootStep.wifiStart false])

/-- Count of UART opens in a boot trace. -/
def uartOpens (t : List BootStep) : Nat :=
  (t.filter fun s =>
    match s with
    | BootStep.uartOpen _ _ => true
    | _ => false).length

/-- Did the HTTP server (hence the ws endpoint) come up in this boot trace? -/
def serverStarted (t : List BootStep) : Bool :=
  t.contains (BootStep.serverStart true)

/-!
Cross-session interleaving model for the mutual-exclusion discipline.

Each `uart.lock()` block of `wsExchange` is one critical section: the mutex
serializes the blocks of all concurrent sessions into a total order, and any
order consistent with the program order of each session is schedulable.  `Act`
abstracts one such block by its serial effect; an exchange of the handler
contributes TWO separate acts, because the write block and the read block
are two distinct `uart.lock()` acquisitions (see `wsExchange`).
-/

/-- One lock-held block on the serial line, tagged by session id. -/
inductive Act where
  | write (sid : Nat) (bs : List Nat)
  | read (sid : Nat)
deriving DecidableEq

/-- The critical sections one exchange of session `sid` contributes, from
the handler code: a write block, then a separate read block. -/
def exchangeCriticalSections (sid : Nat) (frame : List Nat) : List Act :=
  [Act.write sid frame, Act.read sid]

/-- `Interleave xs ys zs`: `zs` is an order-preserving merge of `xs` and
`ys` — a serial-line schedule the mutex can produce for two concurrent
sessions whose own blocks are `xs` and `ys`. -/
inductive Interleave : List Act → List Act → List Act → Prop where
  | nil : Interleave [] [] []
  | left {x : Act} {xs ys zs : List Act} :
      Interleave xs ys zs → Interleave (x :: xs) ys (x :: zs)
  | right {y : Act} {xs ys zs : List Act} :
      Interleave xs ys zs → Interleave xs (y :: ys) (y :: zs)

/-- Is there a `read` by `sid` somewhere in the schedule? -/
def containsReadBy (sid : Nat) (t : List Act) : Bool :=
  t.any fun a =>
    match a with
    | Act.read s => s = sid
    | _ => false

/-- After session `sid` has written, `true` iff a foreign write appears
before `sid` gets to its read. -/
def foreignWriteBeforeOwnRead (sid : Nat) : List Act → Bool
  | [] => false
  | Act.read s :: r =>
      if s = sid then false else foreignWriteBeforeOwnRead sid r
  | Act.write s _ :: r =>
      if s = sid then foreignWriteBeforeOwnRead sid r
      else containsReadBy sid r

/-- `true` iff somewhere in the schedule session `sid` writes a request and
a write by another session hits the line before `sid` reads the reply. -/
def raceWitnessed (sid : Nat) : List Act → Bool
  | [] => false
  | Act.write s _ :: r =>
      if s = sid then foreignWriteBeforeOwnRead sid r else raceWitnessed sid r
  | Act.read _ :: r => raceWitnessed sid r

/-- When does the data branch of the loop hit a `break`?  Read off the code:
only `ws.send` failing — inside the second lock block, after a nonzero-length
`uart.read` — breaks; UART write and read errors are logged and fall through. -/
def dataExchangeCloses (env : ExchangeEnv) : Bool :=
  env.lockR &&
    (match env.readRes with
     | ReadOutcome.bytes bs => !bs.isEmpty && !env.sendOk
     | ReadOutcome.error => false)

/-- The end-to-end scenario of the spec: client frame `[0x41, 0x42]`, both
locks succeed, the write succeeds, the UART answers `[0x4F, 0x4B]`, the
socket send succeeds. -/
def envFullOk : ExchangeEnv :=
  { recv := RecvOutcome.data [65, 66], lockW := true, writeOk := true,
    lockR := true, readRes := ReadOutcome.bytes [79, 75], sendOk := true }

/-- Exchange in which the UART write fails (hardware fault) and the bounded
read then returns nothing. -/
def envWriteErr : ExchangeEnv :=
  { recv := RecvOutcome.data [1], lockW := true, writeOk := false,
    lockR := true, readRes := ReadOutcome.bytes [], sendOk := true }

/-- Exchange in which the bounded UART read fails (hardware fault). -/
def envReadErr : ExchangeEnv :=
  { recv := RecvOutcome.data [3], lockW := true, writeOk := true,
    lockR := true, readRes := ReadOutcome.error, sendOk := true }

/-- Exchange in which the peripheral stays silent: the bounded read returns
zero bytes. -/
def envTimeout : ExchangeEnv :=
  { recv := RecvOutcome.data [1, 2], lockW := true, writeOk := true,
    lockR := true, readRes := ReadOutcome.bytes [], sendOk := true }

/-- Client closed the connection: `ws.recv` returns `Ok(0)`. -/
def envClosed : ExchangeEnv :=
  { recv := RecvOutcome.closed, lockW := true, writeOk := true,
    lockR := true, readRes := ReadOutcome.bytes [], sendOk := true }

/-- Poisoned mutex: both `uart.lock()` attempts fail. -/
def envPoisoned : ExchangeEnv :=
  { recv := RecvOutcome.data [7], lockW := false, writeOk := true,
    lockR := false, readRes := ReadOutcome.bytes [9], sendOk := true }

theorem lockWalk_append (xs ys : List PrimStep) (d : Nat) :
    lockWalk d (xs ++ ys) = (lockWalk d xs).bind fun e => lockWalk e ys := by
  induction xs generalizing d with
  | nil => rfl
  | cons s r ih =>
      cases s <;> simp only [List.cons_append, lockWalk] <;>
        first
          | exact ih _
          | (split <;> simp [ih])

theorem lockWalk_exchange (env : ExchangeEnv) :
    lockWalk 0 (wsExchange env).2 = some 0 := by
  obtain ⟨recv, lockW, writeOk, lockR, readRes, sendOk⟩ := env
  cases recv <;> cases lockW <;> cases writeOk <;> cases lockR <;>
    (try cases sendOk) <;>
    rcases readRes with bs | _ <;> (try rcases bs with _ | ⟨b, bt⟩) <;> rfl

theorem sessionRun_tags_ge (envs : List ExchangeEnv) :
    ∀ n : Nat, ∀ p ∈ sessionRun n envs, n ≤ p.1 := by
  induction envs with
  | nil => intro n p hp; simp [sessionRun] at hp
  | cons env rest ih =>
      intro n p hp
      rw [sessionRun, List.mem_append] at hp
      rcases hp with hp | hp
      · rcases List.mem_map.mp hp with ⟨s, _, rfl⟩
        exact Nat.le_refl n
      · cases hstate : (wsExchange env).1.state with
        | Connected =>
            rw [hstate] at hp
            exact Nat.le_of_succ_le (ih (n + 1) p hp)
        | Closed => rw [hstate] at hp; simp at hp

theorem pairwise_of_total {α : Type} {R : α → α → Prop} (h : ∀ a b, R a b) :
    ∀ l : List α, List.Pairwise R l
  | [] => List.Pairwise.nil
  | a :: l => List.Pairwise.cons (fun b _ => h a b) (pairwise_of_total h l)

/-- Claim C1 (refuted; spec is the intent, code is the slip): the handler
performs the exchange as TWO separate critical sections (two `lockAcquire`
steps in its trace), and consequently the mutex admits a schedule in which
the write of session 1 lands on the serial line between the write of
`[0x41, 0x42]` by session 0 and the read of the reply by session 0 — the
write+read exchange
is not one indivisible critical section. -/
theorem c1_exchange_not_atomic :
    ((wsExchange envFullOk).2.filter fun s => s = PrimStep.lockAcquire).length = 2 ∧
    Interleave (exchangeCriticalSections 0 [65, 66]) (exchangeCriticalSections 1 [67])
      [Act.write 0 [65, 66], Act.write 1 [67], Act.read 0, Act.read 1] ∧
    raceWitnessed 0
      [Act.write 0 [65, 66], Act.write 1 [67], Act.read 0, Act.read 1] = true := by
  refine ⟨by decide, ?_, by decide⟩
  exact Interleave.left (Interleave.right (Interleave.left (Interleave.right Interleave.nil)))

/-- Claim C2 counterexample: a UART write error does not transition the
session to Closed — at `envWriteErr` the write fails, yet the state stays
`Connected` and the loop goes on to a second exchange (tag `1` appears in
the two-exchange run). -/
theorem c2_counterexample :
    (wsExchange envWriteErr).1.state = SessionState.Connected ∧
    (wsExchange envWriteErr).1.state ≠ SessionState.Closed ∧
    1 ∈ (sessionRun 0 [envWriteErr, envTimeout]).map Prod.fst := by
  decide

/-- Claim C2 as amended: transport write and read errors are logged and do
NOT terminate the session; during a data exchange the loop breaks exactly
when a nonempty reply was read and the socket send failed
(`dataExchangeCloses`).  The shared handle itself is untouched. -/
theorem c2_transport_errors_keep_session (env : ExchangeEnv) (f : List Nat)
    (hr : env.recv = RecvOutcome.data f) :
    (wsExchange env).1.state = SessionState.Closed ↔ dataExchangeCloses env = true := by
  obtain ⟨recv, lockW, writeOk, lockR, readRes, sendOk⟩ := env
  cases hr
  cases lockW <;> cases writeOk <;> cases lockR <;>
    rcases readRes with bs | _ <;> (try rcases bs with _ | ⟨b, bt⟩) <;>
    cases sendOk <;> simp [wsExchange, dataExchangeCloses]

/-- Claim C2 amended, witness: with a UART read error the session is not
Closed. -/
theorem c2_amended_witness : (wsExchange envReadErr).1.state ≠ SessionState.Closed :=
  fun hc =>
    absurd ((c2_transport_errors_keep_session envReadErr [3] rfl).mp hc) (by decide)

/-- Claim C3: a zero-length bounded read is not an error — no reply is sent
for the exchange and the session stays Connected, ready for the next
frame. -/
theorem c3_timeout_not_failure (env : ExchangeEnv) (f : List Nat)
    (hr : env.recv = RecvOutcome.data f) (hl : env.lockR = true)
    (hz : env.readRes = ReadOutcome.bytes []) :
    (wsExchange env).1.state = SessionState.Connected ∧
    (wsExchange env).1.reply = none ∧
    sendsOf (wsExchange env).2 = [] := by
  obtain ⟨recv, lockW, writeOk, lockR, readRes, sendOk⟩ := env
  cases hr; cases hl; cases hz
  cases lockW <;> cases writeOk <;> cases sendOk <;> simp [wsExchange, sendsOf]

/-- Claim C3 witness: the silent-peripheral exchange leaves the session
Connected with no reply. -/
theorem c3_witness :
    (wsExchange envTimeout).1.state = SessionState.Connected ∧
    (wsExchange envTimeout).1.reply = none ∧
    sendsOf (wsExchange envTimeout).2 = [] :=
  c3_timeout_not_failure envTimeout [1, 2] rfl rfl rfl

/-- Claim C4: a nonzero read of `bs` is sent back to the client byte-exact,
as exactly one outgoing frame, and the session stays Connected; with an
echoing peripheral (`bs = f`) the client gets exactly its own frame back. -/
theorem c4_byte_exact_reply (env : ExchangeEnv) (f bs : List Nat)
    (hr : env.recv = RecvOutcome.data f) (hlen : bs.length ≤ MAX_FRAME)
    (hl : env.lockR = true) (hb : env.readRes = ReadOutcome.bytes bs)
    (hne : bs ≠ []) (hs : env.sendOk = true) :
    (wsExchange env).1.reply = some bs ∧
    sendsOf (wsExchange env).2 = [(bs, true)] ∧
    (wsExchange env).1.state = SessionState.Connected := by
  obtain ⟨recv, lockW, writeOk, lockR, readRes, sendOk⟩ := env
  cases hr; cases hl; cases hb; cases hs
  rcases bs with _ | ⟨b, bt⟩
  · exact absurd rfl hne
  · cases lockW <;> cases writeOk <;> simp [wsExchange, sendsOf]

/-- Claim C4 witness: the end-to-end scenario — frame `[0x41, 0x42]` in,
peripheral answers `[0x4F, 0x4B]`, client receives exactly `[0x4F, 0x4B]`
as one frame and the session stays Connected. -/
theorem c4_witness :
    (wsExchange envFullOk).1.reply = some [79, 75] ∧
    sendsOf (wsExchange envFullOk).2 = [([79, 75], true)] ∧
    (wsExchange envFullOk).1.state = SessionState.Connected :=
  c4_byte_exact_reply envFullOk [65, 66] [79, 75] rfl (by decide) rfl rfl
    (by decide) rfl

/-- Claim C5: a zero-length receive or close signal ends the session with
no serial traffic at all; a receive error ends it likewise; and a socket
send failure during a data exchange ends it. -/
theorem c5_network_close_paths (env : ExchangeEnv) :
    (env.recv = RecvOutcome.closed →
      (wsExchange env).1 = ⟨SessionState.Closed, none, none⟩ ∧
      writesOf (wsExchange env).2 = [] ∧ readsOf (wsExchange env).2 = []) ∧
    (env.recv = RecvOutcome.error →
      (wsExchange env).1 = ⟨SessionState.Closed, none, none⟩ ∧
      writesOf (wsExchange env).2 = [] ∧ readsOf (wsExchange env).2 = []) ∧
    (∀ f bs, env.recv = RecvOutcome.data f → env.lockR = true →
      env.readRes = ReadOutcome.bytes bs → bs ≠ [] → env.sendOk = false →
      (wsExchange env).1.state = SessionState.Closed) := by
  obtain ⟨recv, lockW, writeOk, lockR, readRes, sendOk⟩ := env
  refine ⟨?_, ?_, ?_⟩
  · intro h; cases h; simp [wsExchange, writesOf, readsOf]
  · intro h; cases h; simp [wsExchange, writesOf, readsOf]
  · intro f bs hr hl hb hne hs
    cases hr; cases hl; cases hb; cases hs
    rcases bs with _ | ⟨b, bt⟩
    · exact absurd rfl hne
    · cases lockW <;> cases writeOk <;> simp [wsExchange]

/-- Claim C5 witness: a connection close (`Ok(0)` receive) ends the session
without touching the serial transport. -/
theorem c5_witness :
    (wsExchange envClosed).1 = ⟨SessionState.Closed, none, none⟩ ∧
    writesOf (wsExchange envClosed).2 = [] ∧ readsOf (wsExchange envClosed).2 = [] :=
  (c5_network_close_paths envClosed).1 rfl

/-- Claim C6: across a whole session run, every serial access happens with
the mutex held, and the lock is released on every exit path — the hold
depth is well-formed and returns to zero. -/
theorem c6_lock_discipline (n : Nat) (envs : List ExchangeEnv) :
    lockWalk 0 ((sessionRun n envs).map Prod.snd) = some 0 := by
  induction envs generalizing n with
  | nil => rfl
  | cons env rest ih =>
      rw [sessionRun, List.map_append, List.map_map]
      have h1 : (Prod.snd ∘ fun s : PrimStep => (n, s)) = id := rfl
      rw [h1, List.map_id, lockWalk_append, lockWalk_exchange]
      cases hstate : (wsExchange env).1.state with
      | Connected => exact ih (n + 1)
      | Closed => rfl

/-- Claim C7: a non-empty client frame is written to the UART in full —
exactly the received bytes, as the single serial write of the exchange —
before any bounded read is attempted, and there is at most one read. -/
theorem c7_full_frame_before_read (env : ExchangeEnv) (f : List Nat)
    (hr : env.recv = RecvOutcome.data f) (hne : f ≠ [])
    (hlen : f.length ≤ MAX_FRAME) (hl : env.lockW = true) :
    writesOf (wsExchange env).2 = [f] ∧
    noReadBeforeWrite (wsExchange env).2 = true ∧
    (readsOf (wsExchange env).2).length ≤ 1 ∧
    (env.writeOk = true → (wsExchange env).1.uartWritten = some f) := by
  obtain ⟨recv, lockW, writeOk, lockR, readRes, sendOk⟩ := env
  cases hr; cases hl
  cases writeOk <;> cases lockR <;>
    rcases readRes with bs | _ <;> (try rcases bs with _ | ⟨b, bt⟩) <;>
    cases sendOk <;> simp [wsExchange, writesOf, readsOf, noReadBeforeWrite]

/-- Claim C7 witness: the `[0x41, 0x42]` frame is written exactly once and
in full before the read. -/
theorem c7_witness :
    writesOf (wsExchange envFullOk).2 = [[65, 66]] ∧
    noReadBeforeWrite (wsExchange envFullOk).2 = true ∧
    (readsOf (wsExchange envFullOk).2).length ≤ 1 ∧
    (envFullOk.writeOk = true → (wsExchange envFullOk).1.uartWritten = some [65, 66]) :=
  c7_full_frame_before_read envFullOk [65, 66] rfl (by decide) (by decide) rfl

/-- Claim C8: a session never pipelines exchanges — in the tagged trace of
a whole run, every step of exchange N precedes every step of exchange
N + 1 (tags are pairwise nondecreasing). -/
theorem c8_no_pipelining (n : Nat) (envs : List ExchangeEnv) :
    List.Pairwise (fun p q : Nat × PrimStep => p.1 ≤ q.1) (sessionRun n envs) := by
  induction envs generalizing n with
  | nil => exact List.Pairwise.nil
  | cons env rest ih =>
      rw [sessionRun]
      refine List.pairwise_append.2 ⟨?_, ?_, ?_⟩
      · exact List.pairwise_map.2 (pairwise_of_total (fun a b => Nat.le_refl n) _)
      · cases hstate : (wsExchange env).1.state with
        | Connected => exact ih (n + 1)
        | Closed => exact List.Pairwise.nil
      · intro x hx y hy
        rcases List.mem_map.mp hx with ⟨s, _, rfl⟩
        cases hstate : (wsExchange env).1.state with
        | Connected =>
            rw [hstate] at hy
            exact Nat.le_of_succ_le (sessionRun_tags_ge rest (n + 1) y hy)
        | Closed => rw [hstate] at hy; simp at hy

/-- Claim C9: the UART is opened exactly once, first thing at boot and at
the fixed baud rate, before the server (hence any session) can start; if
the device cannot be configured, `main` aborts with the initialization
error and the bridge never starts. -/
theorem c9_uart_open_once_first (env : BootEnv) :
    (main_boot env).2.head? = some (BootStep.uartOpen UART_BAUD env.uartOk) ∧
    uartOpens (main_boot env).2 = 1 ∧
    (env.uartOk = false →
      (main_boot env).1 = Except.error BootError.TransportInitError ∧
      serverStarted (main_boot env).2 = false) ∧
    (serverStarted (main_boot env).2 = true → env.uartOk = true) := by
  obtain ⟨u, w, h⟩ := env
  cases u <;> cases w <;> cases h <;>
    simp [main_boot, setup_uart, uartOpens, serverStarted, UART_BAUD]

/-- Claim C9 witness: a failing UART open aborts boot with
`TransportInitError` and the server never starts. -/
theorem c9_witness :
    (main_boot ⟨false, true, true⟩).1 = Except.error BootError.TransportInitError ∧
    serverStarted (main_boot ⟨false, true, true⟩).2 = false :=
  (c9_uart_open_once_first ⟨false, true, true⟩).2.2.1 rfl

/-- Claim C10: a failed `uart.lock()` silently skips the guarded block —
no serial write when the first lock fails, and no read, no reply and no
session termination when the second fails; the frame is simply dropped. -/
theorem c10_lock_failure_silently_skips (env : ExchangeEnv) (f : List Nat)
    (hr : env.recv = RecvOutcome.data f) :
    (env.lockW = false →
      writesOf (wsExchange env).2 = [] ∧ (wsExchange env).1.uartWritten = none) ∧
    (env.lockR = false →
      readsOf (wsExchange env).2 = [] ∧ sendsOf (wsExchange env).2 = [] ∧
      (wsExchange env).1.reply = none ∧
      (wsExchange env).1.state = SessionState.Connected) := by
  obtain ⟨recv, lockW, writeOk, lockR, readRes, sendOk⟩ := env
  cases hr
  constructor
  · intro hw; cases hw
    cases lockR <;> rcases readRes with bs | _ <;>
      (try rcases bs with _ | ⟨b, bt⟩) <;> cases sendOk <;>
      simp [wsExchange, writesOf]
  · intro hrd; cases hrd
    cases lockW <;> cases writeOk <;> simp [wsExchange, readsOf, sendsOf]

/-- Claim C10 witness: with a poisoned mutex (both lock attempts fail) the
frame `[7]` is dropped with no serial traffic, no reply, and the session
still Connected. -/
theorem c10_witness :
    writesOf (wsExchange envPoisoned).2 = [] ∧
    readsOf (wsExchange envPoisoned).2 = [] ∧
    (wsExchange envPoisoned).1.reply = none ∧
    (wsExchange envPoisoned).1.state = SessionState.Connected :=
  ⟨((c10_lock_failure_silently_skips envPoisoned [7] rfl).1 rfl).1,
   ((c10_lock_failure_silently_skips envPoisoned [7] rfl).2 rfl).1,
   ((c10_lock_failure_silently_skips envPoisoned [7] rfl).2 rfl).2.2.1,
   ((c10_lock_failure_silently_skips envPoisoned [7] rfl).2 rfl).2.2.2⟩

end Ecco
